import Mathlib

/-!
Verification of the zedra host-side RPC core (crates/zedra-rpc and
crates/zedra-host) against its natural-language specification.

The Rust sources are shallowly embedded:
* JSON values (`serde_json::Value`) become the inductive `Json`; numbers are
  modelled as integers (the protocol only carries `u64` identifiers and `i32`
  error codes).
* The serde derive semantics of the protocol structs in
  `crates/zedra-rpc/src/protocol.rs` (field order, `skip_serializing_if`,
  `default`, and the `untagged` envelope that tries Request, then Response,
  then Notification) become explicit `toJson` / `fromJson?` functions.
* The byte-level framing of `write_message` / `read_message` in
  `crates/zedra-rpc/src/transport.rs` becomes `write_frame` / `read_frame`
  over lists of bytes (naturals); the serde_json text layer is modelled at
  the JSON-value level, with the payload byte string abstracted as a list.
* Stateful code (the dispatcher loop, the terminal-session manager, the
  request-id counter) becomes explicit state passing; `u64` counters are
  naturals reduced modulo 2^64 where the source increments them.
-/

namespace Zedra

/-- JSON values, modelling `serde_json::Value`. Numbers are integers, which
covers every number the zedra protocol itself produces (`u64` ids, `i32`
error codes, `u16` geometry). Objects are association lists in field order. -/
inductive Json where
  | null : Json
  | bool : Bool → Json
  | num : Int → Json
  | str : String → Json
  | arr : List Json → Json
  | obj : List (String × Json) → Json


/-- First value stored under a key in an association list, modelling both
`serde_json::Map` field lookup and the dispatcher's `HashMap` lookup. -/
def assocFind {α : Type} (key : String) : List (String × α) → Option α
  | [] => none
  | (k, v) :: rest => if k = key then some v else assocFind key rest

/-- Field access on a JSON object (`Value::get`): `none` on non-objects. -/
def Json.get (j : Json) (key : String) : Option Json :=
  match j with
  | .obj fields => assocFind key fields
  | _ => none

/-- Test for `Value::Null`, modelling `serde_json::Value::is_null`. -/
def Json.isNull : Json → Bool
  | .null => true
  | _ => false

/-- Decode a JSON string, modelling serde deserialization of `String`. -/
def Json.asStr : Json → Option String
  | .str s => some s
  | _ => none

/-- Decode an unsigned 64-bit integer, modelling serde deserialization of
`u64`: the number must be a non-negative integer below 2^64. -/
def Json.asU64 : Json → Option Nat
  | .num (.ofNat m) => if m < 18446744073709551616 then some m else none
  | _ => none

/-- Decode a signed 32-bit integer, modelling serde deserialization of
`i32`. -/
def Json.asI32 : Json → Option Int
  | .num (.ofNat m) => if m < 2147483648 then some (.ofNat m) else none
  | .num (.negSucc m) => if m < 2147483648 then some (.negSucc m) else none
  | _ => none

/-- Decode an unsigned 16-bit integer, modelling serde deserialization of
`u16` (terminal geometry). -/
def Json.asU16 : Json → Option Nat
  | .num (.ofNat m) => if m < 65536 then some m else none
  | _ => none

/-- Request struct from `crates/zedra-rpc/src/protocol.rs`: protocol tag,
`u64` identifier (a natural below 2^64), method name, params JSON. -/
structure Request where
  jsonrpc : String
  id : Nat
  method : String
  params : Json


/-- Error object from `crates/zedra-rpc/src/protocol.rs`: `i32` code,
message, optional data. -/
structure RpcError where
  code : Int
  message : String
  data : Option Json


/-- Response struct from `crates/zedra-rpc/src/protocol.rs`: protocol tag,
identifier, optional result, optional error. -/
structure Response where
  jsonrpc : String
  id : Nat
  result : Option Json
  error : Option RpcError


/-- Notification struct from `crates/zedra-rpc/src/protocol.rs`: no
identifier. -/
structure Notification where
  jsonrpc : String
  method : String
  params : Json


/-- Message envelope (`#[serde(untagged)] enum Message`). -/
inductive Message where
  | request : Request → Message
  | response : Response → Message
  | notification : Notification → Message


/-- Standard JSON-RPC error codes from `protocol.rs`. -/
def METHOD_NOT_FOUND : Int := -32601

/-- Internal-error code from `protocol.rs`. -/
def INTERNAL_ERROR : Int := -32603

/-- Serialization of `Request` under its serde derive: fields in declaration
order, with `params` skipped when null (`skip_serializing_if = is_null`). -/
def Request.toJson (r : Request) : Json :=
  .obj ([("jsonrpc", .str r.jsonrpc), ("id", .num r.id), ("method", .str r.method)] ++
    (if r.params.isNull then [] else [("params", r.params)]))

/-- Serialization of `RpcError`: `data` skipped when absent. -/
def RpcError.toJson (e : RpcError) : Json :=
  .obj ([("code", .num e.code), ("message", .str e.message)] ++
    (match e.data with
     | none => []
     | some d => [("data", d)]))

/-- Serialization of `Response`: `result` and `error` skipped when absent
(`skip_serializing_if = "Option::is_none"`). -/
def Response.toJson (r : Response) : Json :=
  .obj ([("jsonrpc", .str r.jsonrpc), ("id", .num r.id)] ++
    (match r.result with
     | none => []
     | some v => [("result", v)]) ++
    (match r.error with
     | none => []
     | some e => [("error", e.toJson)]))

/-- Serialization of `Notification`: `params` skipped when null. -/
def Notification.toJson (n : Notification) : Json :=
  .obj ([("jsonrpc", .str n.jsonrpc), ("method", .str n.method)] ++
    (if n.params.isNull then [] else [("params", n.params)]))

/-- Serialization of the untagged `Message` envelope: the variant's own
serialization. -/
def Message.toJson : Message → Json
  | .request r => r.toJson
  | .response r => r.toJson
  | .notification n => n.toJson

/-- Deserialization of an optional JSON-valued field (`Option<Value>` /
`Option<RpcError>` slot): an absent field or an explicit `null` both decode
to `none`; serde's `Option` deserializer maps JSON null to `None`. -/
def decodeOptField (f : Json → Option α) : Option Json → Option (Option α)
  | none => some none
  | some .null => some none
  | some v => (f v).map some

/-- Deserialization of `Request` under its serde derive: `jsonrpc`, `id` and
`method` are required, `params` defaults to null (`#[serde(default)]`);
unknown fields are ignored. -/
def Request.fromJson? (j : Json) : Option Request :=
  match j with
  | .obj fields =>
    match (assocFind "jsonrpc" fields).bind Json.asStr with
    | none => none
    | some jsonrpc =>
      match (assocFind "id" fields).bind Json.asU64 with
      | none => none
      | some id =>
        match (assocFind "method" fields).bind Json.asStr with
        | none => none
        | some method =>
          some ⟨jsonrpc, id, method, (assocFind "params" fields).getD .null⟩
  | _ => none

/-- Deserialization of `RpcError`: `code` and `message` required, `data`
optional. -/
def RpcError.fromJson? (j : Json) : Option RpcError :=
  match j with
  | .obj fields =>
    match (assocFind "code" fields).bind Json.asI32 with
    | none => none
    | some code =>
      match (assocFind "message" fields).bind Json.asStr with
      | none => none
      | some message =>
        match decodeOptField some (assocFind "data" fields) with
        | none => none
        | some data => some ⟨code, message, data⟩
  | _ => none

/-- Deserialization of `Response`: `jsonrpc` and `id` required, `result` and
`error` optional (absent or null decode to `none`). -/
def Response.fromJson? (j : Json) : Option Response :=
  match j with
  | .obj fields =>
    match (assocFind "jsonrpc" fields).bind Json.asStr with
    | none => none
    | some jsonrpc =>
      match (assocFind "id" fields).bind Json.asU64 with
      | none => none
      | some id =>
        match decodeOptField some (assocFind "result" fields) with
        | none => none
        | some result =>
          match decodeOptField RpcError.fromJson? (assocFind "error" fields) with
          | none => none
          | some error => some ⟨jsonrpc, id, result, error⟩
  | _ => none

/-- Deserialization of `Notification`: `jsonrpc` and `method` required,
`params` defaults to null. -/
def Notification.fromJson? (j : Json) : Option Notification :=
  match j with
  | .obj fields =>
    match (assocFind "jsonrpc" fields).bind Json.asStr with
    | none => none
    | some jsonrpc =>
      match (assocFind "method" fields).bind Json.asStr with
      | none => none
      | some method =>
        some ⟨jsonrpc, method, (assocFind "params" fields).getD .null⟩
  | _ => none

/-- Deserialization of the untagged `Message` envelope: serde tries the
variants in declaration order — Request, then Response, then Notification —
and keeps the first that succeeds. -/
def Message.fromJson? (j : Json) : Option Message :=
  match Request.fromJson? j with
  | some r => some (.request r)
  | none =>
    match Response.fromJson? j with
    | some r => some (.response r)
    | none =>
      match Notification.fromJson? j with
      | some n => some (.notification n)
      | none => none

/-! Decimal formatting, modelling the `Display` implementation for unsigned
integers used by Rust's `format!` macro (in `format!("term-..", n)` and in
the "message too large" error). Defined with explicit fuel so that it is
structurally recursive and evaluates inside the kernel. -/

/-- Decimal digits of `n`, least significant first, with explicit fuel
(`fuel ≥ n` suffices); the empty list for `n = 0`. -/
def toDigitsRev (fuel n : Nat) : List Nat :=
  match fuel with
  | 0 => []
  | fuel + 1 => if n = 0 then [] else n % 10 :: toDigitsRev fuel (n / 10)

/-- Value of a least-significant-first decimal digit list. -/
def ofDigitsRev : List Nat → Nat
  | [] => 0
  | d :: ds => d + 10 * ofDigitsRev ds

/-- Character for one decimal digit. -/
def digitChar : Nat → Char
  | 0 => '0'
  | 1 => '1'
  | 2 => '2'
  | 3 => '3'
  | 4 => '4'
  | 5 => '5'
  | 6 => '6'
  | 7 => '7'
  | 8 => '8'
  | _ => '9'

/-- Decimal character representation of a natural, most significant digit
first. -/
def natChars (n : Nat) : List Char :=
  if n = 0 then ['0'] else ((toDigitsRev n n).reverse).map digitChar

/-- Decimal string of a natural, modelling `u64` / `usize` `Display`. -/
def natStr (n : Nat) : String :=
  String.mk (natChars n)

/-! Frame codec from `crates/zedra-rpc/src/transport.rs`. Bytes are naturals
below 256; the payload (the serde_json text of a message) is abstracted as a
byte list, while the framing itself is byte-exact. -/

/-- Frame-size cap from `read_message`: 16 MiB. -/
def FRAME_CAP : Nat := 16 * 1024 * 1024

/-- Big-endian byte quadruple of `n % 2^32`, modelling
`(n as u32).to_be_bytes()`. -/
def u32be (n : Nat) : List Nat :=
  [n / 16777216 % 256, n / 65536 % 256, n / 256 % 256, n % 256]

/-- Framed writer (`write_message`): emit the payload length as a 4-byte
big-endian `u32` (`payload.len() as u32`, i.e. the length reduced modulo
2^32), then the payload bytes. Serialization of the message itself is
modelled by `Message.toJson`; this function is the byte layer. -/
def write_frame (payload : List Nat) : List Nat :=
  u32be (payload.length % 4294967296) ++ payload

/-- Failure modes of the framed reader: end of stream (a failed
`read_exact`) or an oversized declared length. -/
inductive FrameError where
  | eof : FrameError
  | tooLarge : Nat → FrameError

/-- Message rendered for a `FrameError`, as produced by `read_message`
(`anyhow::bail!("message too large: .. bytes", len)`). -/
def FrameError.render : FrameError → String
  | .eof => "unexpected end of stream"
  | .tooLarge len => "message too large: " ++ natStr len ++ " bytes"

/-- Framed reader (`read_message`): read exactly 4 bytes, interpret them as
a big-endian length, fail with "message too large" if the length exceeds
16 MiB, then read exactly that many payload bytes. Returns the payload and
the remaining stream; JSON parsing of the payload is modelled separately by
`Message.fromJson?`. -/
def read_frame (bytes : List Nat) : Except FrameError (List Nat × List Nat) :=
  match bytes with
  | b0 :: b1 :: b2 :: b3 :: rest =>
    let len := ((b0 * 256 + b1) * 256 + b2) * 256 + b3
    if len > FRAME_CAP then .error (.tooLarge len)
    else if rest.length < len then .error .eof
    else .ok (rest.take len, rest.drop len)
  | _ => .error .eof

/-! Request-identifier generation from `protocol.rs`: a process-wide
`AtomicU64` starting at 1; `next_id` performs `fetch_add(1)`, returning the
old value and wrapping modulo 2^64. -/

/-- Initial value of the `NEXT_ID` atomic counter. -/
def NEXT_ID_INIT : Nat := 1

/-- One step of `next_id`: returns the minted identifier and the new counter
(`fetch_add(1, Relaxed)` wraps modulo 2^64). -/
def next_id (counter : Nat) : Nat × Nat :=
  (counter, (counter + 1) % 18446744073709551616)

/-- Identifiers minted by `k` successive `Request::new` calls starting from
the given counter value. -/
def mintSequence (counter : Nat) : Nat → List Nat
  | 0 => []
  | k + 1 =>
    let (id, counter') := next_id counter
    id :: mintSequence counter' k

/-! Dispatcher from `RpcServer::serve` in `transport.rs`. Handlers are
asynchronous functions returning `Result<Value>`; awaited in-line, they are
modelled as pure functions into `Except` with the error's display string. -/

/-- Handler type (`HandlerFn`): params JSON to result JSON or failure. -/
def Handler : Type := Json → Except String Json

/-- Success response constructor (`Response::ok`). -/
def Response.ok (id : Nat) (result : Json) : Response :=
  ⟨"2.0", id, some result, none⟩

/-- Error response constructor (`Response::err`). -/
def Response.err (id : Nat) (code : Int) (message : String) : Response :=
  ⟨"2.0", id, none, some ⟨code, message, none⟩⟩

/-- Request dispatch from the `Message::Request` arm of `RpcServer::serve`:
look the method up in the handler registry; unknown methods produce a
`-32601` error response, handler failures a `-32603` error response with the
failure's display string, handler successes an ok response. -/
def dispatch (handlers : List (String × Handler)) (req : Request) : Response :=
  match assocFind req.method handlers with
  | some h =>
    match h req.params with
    | .ok result => Response.ok req.id result
    | .error e => Response.err req.id INTERNAL_ERROR e
  | none => Response.err req.id METHOD_NOT_FOUND ("unknown method: " ++ req.method)

/-- One read attempt by the dispatcher loop: a decoded message, or a read /
framing / parse failure (any `Err(_)` from `read_message`). -/
inductive ReadEvent where
  | msg : Message → ReadEvent
  | failed : ReadEvent

/-- Dispatcher loop of `RpcServer::serve`, modelled over the sequence of
read results on one connection: a failed read breaks the loop (the
connection terminates); a request is dispatched and its one response
written; notifications and stray responses produce nothing. Returns the
responses written, in order. -/
def serve (handlers : List (String × Handler)) : List ReadEvent → List Response
  | [] => []
  | .failed :: _ => []
  | .msg m :: rest =>
    match m with
    | .request req => dispatch handlers req :: serve handlers rest
    | .notification _ => serve handlers rest
    | .response _ => serve handlers rest

/-! Terminal-session manager from `crates/zedra-host/src/rpc_daemon.rs`.
The daemon state holds a map from identifier to live PTY session and a `u64`
counter (`next_term_id`, initialized to 1). The PTY handles inside a session
are not observable in the model, so the map is modelled by its key set; PTY
reads and writes are passed in as explicit oracle values. -/

/-- Terminal-manager portion of `DaemonState`: live session identifiers and
the `next_term_id` counter. -/
structure TermMgr where
  terminals : List String
  nextTermId : Nat

/-- Terminal manager of a freshly constructed `DaemonState`: no sessions,
counter 1. -/
def TermMgr.init : TermMgr :=
  ⟨[], 1⟩

/-- Identifier string minted for counter value `n`
(`format!("term-..", current)`). -/
def mintId (n : Nat) : String :=
  "term-" ++ natStr n

/-- The `DaemonState::next_terminal_id` step: return `term-<current>` and
increment the `u64` counter (wrapping modulo 2^64). -/
def TermMgr.nextTerminalId (st : TermMgr) : String × TermMgr :=
  (mintId st.nextTermId, { st with nextTermId := (st.nextTermId + 1) % 18446744073709551616 })

/-- Terminal-manager operations: a successful `terminal/create` (PTY spawn
succeeded, so an identifier is minted and inserted) or a `terminal/close` of
the given identifier. -/
inductive TermOp where
  | create : TermOp
  | close : String → TermOp

/-- Apply one operation to the manager, returning the identifiers handed out
(one for a create, none for a close). Create mints the next identifier and
inserts it into the map; close removes the identifier. -/
def TermMgr.applyOp (st : TermMgr) : TermOp → TermMgr × List String
  | .create =>
    let (id, st') := st.nextTerminalId
    ({ st' with terminals := id :: st'.terminals }, [id])
  | .close id => ({ st with terminals := st.terminals.erase id }, [])

/-- Run a sequence of terminal operations, collecting every identifier
returned by a create, in order. -/
def TermMgr.runOps (st : TermMgr) : List TermOp → TermMgr × List String
  | [] => (st, [])
  | op :: rest =>
    let (st', ids) := st.applyOp op
    let (st'', ids') := st'.runOps rest
    (st'', ids ++ ids')

/-- Number of creates in an operation sequence. -/
def numCreates : List TermOp → Nat
  | [] => 0
  | .create :: rest => numCreates rest + 1
  | .close _ :: rest => numCreates rest

/-! URL-safe base64 (the `base64_url` crate), used by the `terminal/data`
handler. Alphabet `A-Z a-z 0-9 - _`, no padding on encode. Bytes are
naturals below 256. -/

/-- Character of one sextet in the URL-safe base64 alphabet. -/
def b64Char (v : Nat) : Char :=
  if v < 26 then Char.ofNat (65 + v)
  else if v < 52 then Char.ofNat (97 + (v - 26))
  else if v < 62 then Char.ofNat (48 + (v - 52))
  else if v = 62 then '-'
  else '_'

/-- Sextet value of a URL-safe base64 character; `none` for characters
outside the URL-safe alphabet (in particular the standard-base64 characters
'+' and '/'). -/
def b64Val (c : Char) : Option Nat :=
  if 65 ≤ c.toNat ∧ c.toNat ≤ 90 then some (c.toNat - 65)
  else if 97 ≤ c.toNat ∧ c.toNat ≤ 122 then some (c.toNat - 97 + 26)
  else if 48 ≤ c.toNat ∧ c.toNat ≤ 57 then some (c.toNat - 48 + 52)
  else if c = '-' then some 62
  else if c = '_' then some 63
  else none

/-- Encode bytes three at a time into base64 characters, without padding. -/
def encChunks : List Nat → List Char
  | [] => []
  | [b0] => [b64Char (b0 / 4), b64Char (b0 % 4 * 16)]
  | [b0, b1] => [b64Char (b0 / 4), b64Char (b0 % 4 * 16 + b1 / 16), b64Char (b1 % 16 * 4)]
  | b0 :: b1 :: b2 :: rest =>
    b64Char (b0 / 4) :: b64Char (b0 % 4 * 16 + b1 / 16) ::
      b64Char (b1 % 16 * 4 + b2 / 64) :: b64Char (b2 % 64) :: encChunks rest

/-- URL-safe base64 encoding (`base64_url::encode`). -/
def b64urlEncode (bytes : List Nat) : String :=
  String.mk (encChunks bytes)

/-- Map every character to its sextet value; `none` as soon as one character
is not in the URL-safe alphabet. -/
def mapValues : List Char → Option (List Nat)
  | [] => some []
  | c :: cs =>
    match b64Val c with
    | none => none
    | some v =>
      match mapValues cs with
      | none => none
      | some vs => some (v :: vs)

/-- Reassemble bytes from sextets four at a time, accepting a final chunk of
two or three sextets (unpadded input) and rejecting a final chunk of one. -/
def decodeQuads : List Nat → Except String (List Nat)
  | [] => .ok []
  | [_] => .error "invalid length"
  | [v0, v1] => .ok [v0 * 4 + v1 / 16]
  | [v0, v1, v2] => .ok [v0 * 4 + v1 / 16, v1 % 16 * 16 + v2 / 4]
  | v0 :: v1 :: v2 :: v3 :: rest =>
    match decodeQuads rest with
    | .ok tail => .ok ((v0 * 4 + v1 / 16) :: (v1 % 16 * 16 + v2 / 4) :: (v2 % 4 * 64 + v3) :: tail)
    | .error e => .error e

/-- URL-safe base64 decoding (`base64_url::decode`): every character must be
in the URL-safe alphabet and the length must not be 1 modulo 4. The error
string stands for the crate's error display. -/
def b64urlDecode (s : String) : Except String (List Nat) :=
  match mapValues s.data with
  | none => .error "invalid byte"
  | some vals => decodeQuads vals

/-! Terminal RPC handlers from `rpc_daemon.rs`. Each takes the manager state
and the params JSON; PTY effects (the bytes available on the session's
output, the outcome of the PTY resize call) enter as explicit arguments. -/

/-- JSON result `[("ok", true)]` returned by several handlers. -/
def okJson : Json :=
  .obj [("ok", .bool true)]

/-- Parse of `TermDataParams` (serde): requires string fields `id` and
`data`. -/
def parseDataParams (j : Json) : Option (String × String) :=
  match j with
  | .obj fields =>
    match (assocFind "id" fields).bind Json.asStr with
    | none => none
    | some id =>
      match (assocFind "data" fields).bind Json.asStr with
      | none => none
      | some data => some (id, data)
  | _ => none

/-- Parse of `TermResizeParams` (serde): string `id`, `u16` `cols` and
`rows`. -/
def parseResizeParams (j : Json) : Option (String × Nat × Nat) :=
  match j with
  | .obj fields =>
    match (assocFind "id" fields).bind Json.asStr with
    | none => none
    | some id =>
      match (assocFind "cols" fields).bind Json.asU16 with
      | none => none
      | some cols =>
        match (assocFind "rows" fields).bind Json.asU16 with
        | none => none
        | some rows => some (id, cols, rows)
  | _ => none

/-- Grace period in milliseconds slept by the `terminal/data` handler before
its single read (`Duration::from_millis(10)`). -/
def GRACE_MS : Nat := 10

/-- Read buffer size of the `terminal/data` handler (`[0u8; 8192]`). -/
def TERM_READ_BUF : Nat := 8192

/-- The `terminal/data` handler: deserialize params, decode the `data` field
as URL-safe base64 (failure yields a "bad base64: " error before the session
lookup), look the session up (failure yields "unknown terminal: <id>"),
write the decoded bytes to the PTY input, then perform one read of up to
8192 bytes from the PTY output, modelled as taking up to 8192 of the
`avail` bytes, and answer with their URL-safe base64 encoding — the empty
string when nothing was read. Returns the response JSON, the bytes written
to the PTY, and the state. -/
def termDataHandler (st : TermMgr) (params : Json) (avail : List Nat) :
    Except String (Json × List Nat × TermMgr) :=
  match parseDataParams params with
  | none => .error "invalid params"
  | some (id, dataStr) =>
    match b64urlDecode dataStr with
    | .error e => .error ("bad base64: " ++ e)
    | .ok bytes =>
      if st.terminals.contains id then
        let buf := avail.take TERM_READ_BUF
        let output := if buf.length > 0 then b64urlEncode buf else ""
        .ok (.obj [("output", .str output)], bytes, st)
      else .error ("unknown terminal: " ++ id)

/-- The `terminal/resize` handler: deserialize params, look the session up
(failure yields "unknown terminal: <id>"), then resize the PTY; the PTY
call's outcome is the `ptyResize` argument, with failures rendered as
"resize failed: ..". -/
def termResizeHandler (st : TermMgr) (params : Json) (ptyResize : Except String Unit) :
    Except String Json :=
  match parseResizeParams params with
  | none => .error "invalid params"
  | some (id, _, _) =>
    if st.terminals.contains id then
      match ptyResize with
      | .ok _ => .ok okJson
      | .error e => .error ("resize failed: " ++ e)
    else .error ("unknown terminal: " ++ id)

/-- The `terminal/close` handler: extract the string field `id` from the
params (`.get("id").and_then(as_str)`, failure yields "missing id"), remove
it from the map unconditionally, and answer `ok: true` whether or not the
identifier was present. -/
def termCloseHandler (st : TermMgr) (params : Json) :
    Except String (Json × TermMgr) :=
  match (params.get "id").bind Json.asStr with
  | none => .error "missing id"
  | some id => .ok (okJson, { st with terminals := st.terminals.erase id })

/-! Path resolution and the filesystem / LSP handlers from `rpc_daemon.rs`.
Paths are strings; `pathJoin` models `std::path::PathBuf::join`, and the
filesystem capability (the `zedra_fs::Filesystem` trait object in
`DaemonState`) is an abstract record of functions. -/

/-- Absolute-path test (`Path::is_absolute` on Unix): a leading slash. -/
def isAbsolutePath (p : String) : Bool :=
  match p.data with
  | '/' :: _ => true
  | _ => false

/-- Join a path onto a base, modelling `PathBuf::join` (`Path::push`): an
absolute path replaces the base; otherwise the path is appended after a
separator (none added if the base is empty or already ends in one). -/
def pathJoin (base p : String) : String :=
  if isAbsolutePath p then p
  else if base = "" then p
  else if base.data.getLast? = some '/' then base ++ p
  else base ++ "/" ++ p

/-- Abstract filesystem capability (the `zedra_fs::Filesystem` trait as the
fs handlers consume it): each operation is keyed by the already-resolved
path. Directory-entry and stat results are abstracted as the JSON the
handler serializes them to. -/
structure Filesystem where
  list : String → Except String Json
  read : String → Except String String
  write : String → String → Except String Unit
  stat : String → Except String Json

/-- Parse of the single-field `path` params structs (`FsListParams`,
`FsReadParams`, `FsStatParams`). -/
def parsePathParams (j : Json) : Option String :=
  match j with
  | .obj fields => (assocFind "path" fields).bind Json.asStr
  | _ => none

/-- Parse of `FsWriteParams`: string fields `path` and `content`. -/
def parseWriteParams (j : Json) : Option (String × String) :=
  match j with
  | .obj fields =>
    match (assocFind "path" fields).bind Json.asStr with
    | none => none
    | some path =>
      match (assocFind "content" fields).bind Json.asStr with
      | none => none
      | some content => some (path, content)
  | _ => none

/-- The `fs/list` handler: deserialize `FsListParams`, join the path onto
the daemon working directory, list it. -/
def fsListHandler (fs : Filesystem) (workdir : String) (params : Json) :
    Except String Json :=
  match parsePathParams params with
  | none => .error "invalid params"
  | some p => fs.list (pathJoin workdir p)

/-- The `fs/read` handler: deserialize `FsReadParams`, join the path onto
the working directory, read it, answer `FsReadResult`. -/
def fsReadHandler (fs : Filesystem) (workdir : String) (params : Json) :
    Except String Json :=
  match parsePathParams params with
  | none => .error "invalid params"
  | some p =>
    (fs.read (pathJoin workdir p)).map fun content => .obj [("content", .str content)]

/-- The `fs/write` handler: deserialize `FsWriteParams`, join the path onto
the working directory, write the content, answer `ok: true`. -/
def fsWriteHandler (fs : Filesystem) (workdir : String) (params : Json) :
    Except String Json :=
  match parseWriteParams params with
  | none => .error "invalid params"
  | some (p, content) =>
    (fs.write (pathJoin workdir p) content).map fun _ => okJson

/-- The `fs/stat` handler: deserialize `FsStatParams`, join the path onto
the working directory, stat it. -/
def fsStatHandler (fs : Filesystem) (workdir : String) (params : Json) :
    Except String Json :=
  match parsePathParams params with
  | none => .error "invalid params"
  | some p => fs.stat (pathJoin workdir p)

/-- The `lsp/diagnostics` handler: extract the string field `path`
(`.get("path").and_then(as_str)`, failure yields "missing path"), join it
onto the working directory, and run the diagnostics check on the resolved
path; `run_lsp_check` is abstracted as the `lspCheck` argument. -/
def lspDiagnosticsHandler (lspCheck : String → Json) (workdir : String) (params : Json) :
    Except String Json :=
  match (params.get "path").bind Json.asStr with
  | none => .error "missing path"
  | some p => .ok (lspCheck (pathJoin workdir p))

/-- Range conditions that the Rust field types (`u64` identifier, `i32`
error code) enforce on a message; the Lean model carries them explicitly
because it widens those fields to `Nat` / `Int`. -/
def Message.wfBounds : Message → Bool
  | .request r => decide (r.id < 18446744073709551616)
  | .response r =>
    decide (r.id < 18446744073709551616) &&
      r.error.all fun e => decide (-2147483648 ≤ e.code) && decide (e.code < 2147483648)
  | .notification _ => true

/-- No optional slot of the message holds an explicit JSON null: the
response `result` is not `Some(Value::Null)` and an error's `data` is not
`Some(Value::Null)`. Serde serializes such a slot as an explicit `null`
field and then decodes that field back to `None`, so these are exactly the
messages whose wire roundtrip is lossy. -/
def Message.noExplicitNull : Message → Bool
  | .response r =>
    (r.result.all fun v => !v.isNull) &&
      (r.error.all fun e => e.data.all fun d => !d.isNull)
  | _ => true

/-! Helper lemmas about the serde model. -/

theorem asU64_natCast (id : Nat) (h : id < 18446744073709551616) :
    Json.asU64 (.num (id : Int)) = some id := by
  show Json.asU64 (.num (.ofNat id)) = some id
  rw [Json.asU64, if_pos h]

theorem asI32_bounds (code : Int) (h1 : -2147483648 ≤ code) (h2 : code < 2147483648) :
    Json.asI32 (.num code) = some code := by
  cases code with
  | ofNat m =>
    rw [Int.ofNat_eq_coe] at h2
    have hm : m < 2147483648 := by omega
    rw [Json.asI32, if_pos hm]
  | negSucc m =>
    rw [Int.negSucc_eq] at h1
    have hm : m < 2147483648 := by omega
    rw [Json.asI32, if_pos hm]

theorem decodeOptField_some {α : Type} (f : Json → Option α) (v : Json)
    (hv : v.isNull = false) :
    decodeOptField f (some v) = (f v).map some := by
  cases v
  · exact absurd hv (by simp [Json.isNull])
  all_goals rfl

theorem decodeOptField_none {α : Type} (f : Json → Option α) :
    decodeOptField f none = some none := rfl

theorem request_roundtrip (r : Request) (h : r.id < 18446744073709551616) :
    Request.fromJson? r.toJson = some r := by
  rcases r with ⟨jsonrpc, id, method, params⟩
  have h' : id < 18446744073709551616 := h
  cases params <;>
    simp only [Request.toJson, Request.fromJson?, Json.isNull, if_true, if_false,
      Bool.false_eq_true, List.append_nil, List.cons_append, List.nil_append,
      assocFind, Json.asStr, asU64_natCast id h', String.reduceEq, reduceIte,
      Option.some_bind, Option.getD_some, Option.getD_none]

theorem notification_roundtrip (n : Notification) :
    Notification.fromJson? n.toJson = some n := by
  rcases n with ⟨jsonrpc, method, params⟩
  cases params <;>
    simp only [Notification.toJson, Notification.fromJson?, Json.isNull, if_true, if_false,
      Bool.false_eq_true, List.append_nil, List.cons_append, List.nil_append,
      assocFind, Json.asStr, String.reduceEq, reduceIte,
      Option.some_bind, Option.getD_some, Option.getD_none]

theorem rpcError_roundtrip (e : RpcError)
    (h1 : -2147483648 ≤ e.code) (h2 : e.code < 2147483648)
    (hd : e.data.all (fun d => !d.isNull) = true) :
    RpcError.fromJson? e.toJson = some e := by
  rcases e with ⟨code, message, data⟩
  cases data with
  | none =>
    simp only [RpcError.toJson, RpcError.fromJson?, List.append_nil,
      assocFind, Json.asStr, asI32_bounds code h1 h2, String.reduceEq, reduceIte,
      Option.some_bind, decodeOptField_none]
  | some d =>
    have hd' : d.isNull = false := by simpa using hd
    simp only [RpcError.toJson, RpcError.fromJson?, List.append_nil, List.cons_append,
      List.nil_append, assocFind, Json.asStr, asI32_bounds code h1 h2, String.reduceEq,
      reduceIte, Option.some_bind, decodeOptField_some some d hd', Option.map_some']

theorem RpcError.toJson_isNull (e : RpcError) : e.toJson.isNull = false := rfl

theorem request_fromJson_of_response (r : Response) (h : r.id < 18446744073709551616) :
    Request.fromJson? r.toJson = none := by
  rcases r with ⟨jsonrpc, id, result, error⟩
  have h' : id < 18446744073709551616 := h
  cases result <;> cases error <;>
    simp only [Response.toJson, Request.fromJson?, List.append_nil, List.cons_append,
      List.nil_append, assocFind, Json.asStr, asU64_natCast id h', String.reduceEq,
      reduceIte, Option.some_bind, Option.none_bind]

theorem request_fromJson_of_notification (n : Notification) :
    Request.fromJson? n.toJson = none := by
  rcases n with ⟨jsonrpc, method, params⟩
  cases params <;>
    simp only [Notification.toJson, Request.fromJson?, Json.isNull, if_true, if_false,
      Bool.false_eq_true, List.append_nil, List.cons_append, List.nil_append,
      assocFind, Json.asStr, String.reduceEq, reduceIte, Option.some_bind, Option.none_bind]

theorem response_fromJson_of_notification (n : Notification) :
    Response.fromJson? n.toJson = none := by
  rcases n with ⟨jsonrpc, method, params⟩
  cases params <;>
    simp only [Notification.toJson, Response.fromJson?, Json.isNull, if_true, if_false,
      Bool.false_eq_true, List.append_nil, List.cons_append, List.nil_append,
      assocFind, Json.asStr, String.reduceEq, reduceIte, Option.some_bind, Option.none_bind]

theorem response_roundtrip (r : Response) (hid : r.id < 18446744073709551616)
    (hres : ∀ v, r.result = some v → v.isNull = false)
    (herr : ∀ e, r.error = some e →
      -2147483648 ≤ e.code ∧ e.code < 2147483648 ∧ e.data.all (fun d => !d.isNull) = true) :
    Response.fromJson? r.toJson = some r := by
  rcases r with ⟨jsonrpc, id, result, error⟩
  have h' : id < 18446744073709551616 := hid
  cases result with
  | none =>
    cases error with
    | none =>
      simp only [Response.toJson, Response.fromJson?, List.append_nil, List.cons_append,
        List.nil_append, assocFind, Json.asStr, asU64_natCast id h', String.reduceEq,
        reduceIte, Option.some_bind, decodeOptField_none]
    | some e =>
      obtain ⟨he1, he2, he3⟩ := herr e rfl
      simp only [Response.toJson, Response.fromJson?, List.append_nil, List.cons_append,
        List.nil_append, assocFind, Json.asStr, asU64_natCast id h', String.reduceEq,
        reduceIte, Option.some_bind, decodeOptField_none,
        decodeOptField_some RpcError.fromJson? e.toJson (RpcError.toJson_isNull e),
        rpcError_roundtrip e he1 he2 he3, Option.map_some']
  | some v =>
    have hv : v.isNull = false := hres v rfl
    cases error with
    | none =>
      simp only [Response.toJson, Response.fromJson?, List.append_nil, List.cons_append,
        List.nil_append, assocFind, Json.asStr, asU64_natCast id h', String.reduceEq,
        reduceIte, Option.some_bind, decodeOptField_none,
        decodeOptField_some some v hv, Option.map_some']
    | some e =>
      obtain ⟨he1, he2, he3⟩ := herr e rfl
      simp only [Response.toJson, Response.fromJson?, List.append_nil, List.cons_append,
        List.nil_append, assocFind, Json.asStr, asU64_natCast id h', String.reduceEq,
        reduceIte, Option.some_bind,
        decodeOptField_some some v hv,
        decodeOptField_some RpcError.fromJson? e.toJson (RpcError.toJson_isNull e),
        rpcError_roundtrip e he1 he2 he3, Option.map_some']

theorem message_roundtrip (m : Message) (hwf : m.wfBounds = true)
    (hnn : m.noExplicitNull = true) :
    Message.fromJson? m.toJson = some m := by
  cases m with
  | request r =>
    have hid : r.id < 18446744073709551616 := by
      simpa [Message.wfBounds] using hwf
    simp [Message.fromJson?, Message.toJson, request_roundtrip r hid]
  | response r =>
    simp only [Message.wfBounds] at hwf
    simp only [Message.noExplicitNull] at hnn
    rw [Bool.and_eq_true] at hwf hnn
    have hid : r.id < 18446744073709551616 := by simpa using hwf.1
    have hres : ∀ v, r.result = some v → v.isNull = false := by
      intro v hv
      have hv' := hnn.1
      rw [hv] at hv'
      simpa using hv'
    have herr : ∀ e, r.error = some e →
        -2147483648 ≤ e.code ∧ e.code < 2147483648 ∧
          e.data.all (fun d => !d.isNull) = true := by
      intro e he
      have h1 := hwf.2
      have h2 := hnn.2
      rw [he] at h1 h2
      simp only [Option.all_some, Bool.and_eq_true, decide_eq_true_eq] at h1 h2
      exact ⟨h1.1, h1.2, h2⟩
    simp [Message.fromJson?, Message.toJson, request_fromJson_of_response r hid,
      response_roundtrip r hid hres herr]
  | notification n =>
    simp [Message.fromJson?, Message.toJson, request_fromJson_of_notification n,
      response_fromJson_of_notification n, notification_roundtrip n]

/-! Helper lemmas about the frame codec. -/

theorem u32be_decode (n : Nat) (h : n < 4294967296) :
    ((n / 16777216 % 256 * 256 + n / 65536 % 256) * 256 + n / 256 % 256) * 256 + n % 256 = n := by
  omega

theorem read_frame_header (L : Nat) (hL : L < 4294967296) (rest : List Nat) :
    read_frame (u32be L ++ rest) =
      if FRAME_CAP < L then .error (.tooLarge L)
      else if rest.length < L then .error .eof
      else .ok (rest.take L, rest.drop L) := by
  simp only [u32be, List.cons_append, List.nil_append, read_frame]
  rw [u32be_decode L hL]

theorem FRAME_CAP_lt : FRAME_CAP < 4294967296 := by norm_num [FRAME_CAP]

theorem frame_roundtrip (payload : List Nat) (h : payload.length ≤ FRAME_CAP) :
    read_frame (write_frame payload) = .ok (payload, []) := by
  have hlt : payload.length < 4294967296 := by
    have := FRAME_CAP_lt
    omega
  have hmod : payload.length % 4294967296 = payload.length := Nat.mod_eq_of_lt hlt
  rw [write_frame, hmod, read_frame_header payload.length hlt payload]
  rw [if_neg (by omega), if_neg (by omega)]
  simp

/-! Claim theorems. -/

/-- C1: for every request envelope the dispatcher reads on a connection it
writes exactly one response — the next element of the output stream — and
that response carries the request's identifier and has exactly one of
`result` / `error` populated; a notification envelope produces no response;
an inbound response envelope is ignored and produces no reply. -/
theorem c1_dispatcher_one_response (handlers : List (String × Handler))
    (req : Request) (n : Notification) (resp : Response) (rest : List ReadEvent) :
    serve handlers (.msg (.request req) :: rest) =
      dispatch handlers req :: serve handlers rest ∧
    (dispatch handlers req).id = req.id ∧
    (dispatch handlers req).result.isSome = !(dispatch handlers req).error.isSome ∧
    serve handlers (.msg (.notification n) :: rest) = serve handlers rest ∧
    serve handlers (.msg (.response resp) :: rest) = serve handlers rest := by
  have hid : (dispatch handlers req).id = req.id := by
    unfold dispatch
    split
    · split <;> rfl
    · rfl
  have hxor : (dispatch handlers req).result.isSome =
      !(dispatch handlers req).error.isSome := by
    unfold dispatch
    split
    · split <;> rfl
    · rfl
  exact ⟨rfl, hid, hxor, rfl, rfl⟩

/-- C2 counterexample: the roundtrip claim fails as stated. The concrete
response `Response::ok(1, Value::Null)` — result populated with an explicit
JSON null — serializes to an object whose `result` field is `null`, and the
untagged decoder maps that back to an ABSENT result, so decode(encode(m))
is a different message. -/
theorem c2_roundtrip_counterexample :
    Message.fromJson? (Message.toJson (.response ⟨"2.0", 1, some .null, none⟩)) =
        some (.response ⟨"2.0", 1, none, none⟩) ∧
      Message.fromJson? (Message.toJson (.response ⟨"2.0", 1, some .null, none⟩)) ≠
        some (.response ⟨"2.0", 1, some .null, none⟩) := by
  refine ⟨rfl, fun hc => ?_⟩
  have h1 : Message.response ⟨"2.0", 1, none, none⟩ =
      Message.response ⟨"2.0", 1, some .null, none⟩ := Option.some.inj hc
  injection h1 with h2
  injection h2 with hj hi hr he
  exact Option.noConfusion hr

/-- C2 (amended): for every message kind, decoding the encoded message
yields the original, provided no optional slot of the message holds an
explicit JSON null (a `Some(Value::Null)` response result or error data is
re-read as absent) and the numeric fields fit their Rust types; a frame
whose payload is at most 16 MiB reads back exactly, and the wire form is
the 4-byte big-endian length followed by the payload bytes. -/
theorem c2_roundtrip (m : Message) (payload : List Nat)
    (hwf : m.wfBounds = true) (hnn : m.noExplicitNull = true)
    (hcap : payload.length ≤ FRAME_CAP) :
    Message.fromJson? m.toJson = some m ∧
    read_frame (write_frame payload) = .ok (payload, []) ∧
    write_frame payload = u32be payload.length ++ payload := by
  refine ⟨message_roundtrip m hwf hnn, frame_roundtrip payload hcap, ?_⟩
  have hlt : payload.length < 4294967296 := by
    have := FRAME_CAP_lt
    omega
  rw [write_frame, Nat.mod_eq_of_lt hlt]

/-- C2 witness: the roundtrip at a concrete request and a concrete two-byte
payload. -/
theorem c2_roundtrip_witness :
    Message.fromJson? (Message.toJson (.request ⟨"2.0", 1, "fs/read", .null⟩)) =
        some (.request ⟨"2.0", 1, "fs/read", .null⟩) ∧
      read_frame (write_frame [123, 125]) = .ok ([123, 125], []) ∧
      write_frame [123, 125] = u32be ([123, 125] : List Nat).length ++ [123, 125] :=
  c2_roundtrip (.request ⟨"2.0", 1, "fs/read", .null⟩) [123, 125]
    (by decide) (by decide) (by decide)

/-- C3: a frame whose declared length exceeds 16 MiB fails with the
"message too large" error — whose rendered message is
"message too large: <len> bytes" — and the dispatcher loop terminates the
connection on any read failure; a declared length of 16 MiB or less is
never rejected by the length check. -/
theorem c3_frame_cap (L : Nat) (rest : List Nat) (handlers : List (String × Handler))
    (evs : List ReadEvent) :
    (FRAME_CAP < L → L < 2 ^ 32 →
      read_frame (u32be L ++ rest) = .error (.tooLarge L)) ∧
    (L ≤ FRAME_CAP → ∀ n, read_frame (u32be L ++ rest) ≠ .error (.tooLarge n)) ∧
    FrameError.render (.tooLarge L) = "message too large: " ++ natStr L ++ " bytes" ∧
    serve handlers (.failed :: evs) = [] := by
  refine ⟨fun h1 h2 => ?_, fun h1 n => ?_, rfl, rfl⟩
  · have h2' : L < 4294967296 := by
      have : (2 : Nat) ^ 32 = 4294967296 := by norm_num
      omega
    rw [read_frame_header L h2', if_pos h1]
  · have h2 : L < 4294967296 := by
      have := FRAME_CAP_lt
      omega
    rw [read_frame_header L h2, if_neg (by omega)]
    split <;> simp

/-- C3 witness: the length check at 16 MiB + 1, which the reader rejects
with the rendered message, and at a small in-bound length. -/
theorem c3_frame_cap_witness :
    (FRAME_CAP < 16777217 → 16777217 < 2 ^ 32 →
      read_frame (u32be 16777217 ++ []) = .error (.tooLarge 16777217)) ∧
    (16777217 ≤ FRAME_CAP → ∀ n, read_frame (u32be 16777217 ++ []) ≠ .error (.tooLarge n)) ∧
    FrameError.render (.tooLarge 16777217) =
      "message too large: " ++ natStr 16777217 ++ " bytes" ∧
    serve [] (.failed :: []) = [] :=
  c3_frame_cap 16777217 [] [] []

/-- C4: the dispatcher answers a request whose method has no registered
handler with error code -32601 and message "unknown method: <name>"; a
request whose handler fails with error code -32603 and the failure's
display string; and a request whose handler succeeds with the handler's
result and no error. -/
theorem c4_dispatch_errors (handlers : List (String × Handler)) (req : Request)
    (h : Handler) (e : String) (v : Json) :
    (assocFind req.method handlers = none →
      dispatch handlers req =
        ⟨"2.0", req.id, none, some ⟨-32601, "unknown method: " ++ req.method, none⟩⟩) ∧
    (assocFind req.method handlers = some h → h req.params = .error e →
      dispatch handlers req = ⟨"2.0", req.id, none, some ⟨-32603, e, none⟩⟩) ∧
    (assocFind req.method handlers = some h → h req.params = .ok v →
      dispatch handlers req = ⟨"2.0", req.id, some v, none⟩) := by
  refine ⟨fun h0 => ?_, fun h1 h2 => ?_, fun h1 h2 => ?_⟩ <;> unfold dispatch
  · simp only [h0]
    rfl
  · simp only [h1, h2]
    rfl
  · simp only [h1, h2]
    rfl

/-- C4 witness: dispatch against a one-handler registry at a concrete
request whose handler succeeds. -/
theorem c4_dispatch_errors_witness :
    (assocFind "echo" [("echo", fun p => (.ok p : Except String Json))] = none →
      dispatch [("echo", fun p => .ok p)] ⟨"2.0", 7, "echo", .str "x"⟩ =
        ⟨"2.0", 7, none, some ⟨-32601, "unknown method: " ++ "echo", none⟩⟩) ∧
    (assocFind "echo" [("echo", fun p => (.ok p : Except String Json))] =
        some (fun p => .ok p) →
      (fun p => (.ok p : Except String Json)) (Json.str "x") = .error "boom" →
      dispatch [("echo", fun p => .ok p)] ⟨"2.0", 7, "echo", .str "x"⟩ =
        ⟨"2.0", 7, none, some ⟨-32603, "boom", none⟩⟩) ∧
    (assocFind "echo" [("echo", fun p => (.ok p : Except String Json))] =
        some (fun p => .ok p) →
      (fun p => (.ok p : Except String Json)) (Json.str "x") = .ok (.str "x") →
      dispatch [("echo", fun p => .ok p)] ⟨"2.0", 7, "echo", .str "x"⟩ =
        ⟨"2.0", 7, some (.str "x"), none⟩) :=
  c4_dispatch_errors [("echo", fun p => .ok p)] ⟨"2.0", 7, "echo", .str "x"⟩
    (fun p => .ok p) "boom" (.str "x")

/-- C10: the frame writer emits the payload length reduced modulo 2^32 as
its 4-byte prefix (the `as u32` cast), so for a payload of 2^32 bytes or
more the prefix value differs from the payload length; the writer applies
no 16 MiB bound, so for any payload longer than 16 MiB and shorter than
2^32 bytes the frame is emitted in full while the cap-obeying reader
rejects it as too large. -/
theorem c10_writer_unbounded (payload : List Nat) (L : Nat) :
    write_frame payload = u32be (payload.length % 2 ^ 32) ++ payload ∧
    (2 ^ 32 ≤ payload.length → payload.length % 2 ^ 32 ≠ payload.length) ∧
    (FRAME_CAP < L → L < 2 ^ 32 → ∀ p : List Nat, p.length = L →
      write_frame p = u32be L ++ p ∧
      read_frame (write_frame p) = .error (.tooLarge L)) := by
  have hpow : (2 : Nat) ^ 32 = 4294967296 := by norm_num
  refine ⟨by rw [hpow]; rfl, fun hge => ?_, fun hc hlt p hp => ?_⟩
  · rw [hpow] at hge ⊢
    have := Nat.mod_lt payload.length (show 0 < 4294967296 by norm_num)
    omega
  · rw [hpow] at hlt
    have hmod : p.length % 4294967296 = L := by
      rw [hp]
      exact Nat.mod_eq_of_lt hlt
    constructor
    · rw [write_frame, hmod]
    · rw [write_frame, hmod, read_frame_header L hlt p, if_pos hc]

theorem mintSequence_eq_range' (c k : Nat) (h : c + k ≤ 18446744073709551616) :
    mintSequence c k = List.range' c k := by
  induction k generalizing c with
  | zero => rfl
  | succ k ih =>
    cases k with
    | zero => rfl
    | succ k' =>
      have hc1 : (c + 1) % 18446744073709551616 = c + 1 :=
        Nat.mod_eq_of_lt (by omega)
      show c :: mintSequence ((c + 1) % 18446744073709551616) (k' + 1) =
        List.range' c (k' + 1 + 1)
      rw [hc1, ih (c + 1) (by omega), ← List.range'_succ]

/-- C8: request identifiers are minted by a process-wide counter starting at
1 and incremented by one per request, so the first k mints return 1..k in
order, any later identifier strictly exceeds any earlier one, and the first
minted identifier is 1 (for any k below the u64 wrap). -/
theorem c8_next_id_monotonic (k : Nat) (hk : k ≤ 2 ^ 64 - 1) :
    mintSequence NEXT_ID_INIT k = List.range' 1 k ∧
    (mintSequence NEXT_ID_INIT k).Pairwise (· < ·) ∧
    (0 < k → (mintSequence NEXT_ID_INIT k).head? = some 1) := by
  have hpow : (2 : Nat) ^ 64 - 1 = 18446744073709551615 := by norm_num
  rw [hpow] at hk
  have heq : mintSequence NEXT_ID_INIT k = List.range' 1 k :=
    mintSequence_eq_range' 1 k (by omega)
  refine ⟨heq, ?_, ?_⟩
  · rw [heq]
    exact List.pairwise_lt_range' 1 k
  · intro hpos
    rw [heq]
    cases k with
    | zero => omega
    | succ k' => rfl

/-- C8 witness: the first three minted identifiers. -/
theorem c8_next_id_monotonic_witness :
    mintSequence NEXT_ID_INIT 3 = List.range' 1 3 ∧
    (mintSequence NEXT_ID_INIT 3).Pairwise (· < ·) ∧
    (0 < 3 → (mintSequence NEXT_ID_INIT 3).head? = some 1) :=
  c8_next_id_monotonic 3 (by norm_num)


theorem ofDigitsRev_toDigitsRev (fuel n : Nat) (h : n ≤ fuel) :
    ofDigitsRev (toDigitsRev fuel n) = n := by
  induction fuel generalizing n with
  | zero =>
    have : n = 0 := by omega
    subst this
    rfl
  | succ fuel ih =>
    rw [toDigitsRev]
    by_cases hn : n = 0
    · subst hn
      rfl
    · rw [if_neg hn, ofDigitsRev]
      have hdiv : n / 10 ≤ fuel := by
        have := Nat.div_lt_self (Nat.pos_of_ne_zero hn) (by norm_num : (1:Nat) < 10)
        omega
      rw [ih (n / 10) hdiv]
      omega

theorem toDigitsRev_self_inj (a b : Nat) (h : toDigitsRev a a = toDigitsRev b b) : a = b := by
  have ha := ofDigitsRev_toDigitsRev a a le_rfl
  have hb := ofDigitsRev_toDigitsRev b b le_rfl
  rw [h, hb] at ha
  omega

theorem toDigitsRev_lt_ten (fuel n : Nat) : ∀ d ∈ toDigitsRev fuel n, d < 10 := by
  induction fuel generalizing n with
  | zero => simp [toDigitsRev]
  | succ fuel ih =>
    intro d hd
    rw [toDigitsRev] at hd
    by_cases hn : n = 0
    · simp [hn] at hd
    · rw [if_neg hn] at hd
      rcases List.mem_cons.mp hd with h1 | h2
      · subst h1
        exact Nat.mod_lt n (by norm_num)
      · exact ih (n / 10) d h2

theorem digitChar_inj_lt : ∀ d1 < 10, ∀ d2 < 10, digitChar d1 = digitChar d2 → d1 = d2 := by
  decide

theorem map_digitChar_inj (l1 l2 : List Nat) (h1 : ∀ d ∈ l1, d < 10)
    (h2 : ∀ d ∈ l2, d < 10) (h : l1.map digitChar = l2.map digitChar) : l1 = l2 := by
  induction l1 generalizing l2 with
  | nil =>
    cases l2 with
    | nil => rfl
    | cons b bs => simp at h
  | cons a as ih =>
    cases l2 with
    | nil => simp at h
    | cons b bs =>
      simp only [List.map_cons, List.cons.injEq] at h
      have hab : a = b :=
        digitChar_inj_lt a (h1 a (List.mem_cons_self a as)) b
          (h2 b (List.mem_cons_self b bs)) h.1
      have htail : as = bs :=
        ih bs (fun d hd => h1 d (List.mem_cons_of_mem a hd))
          (fun d hd => h2 d (List.mem_cons_of_mem b hd)) h.2
      rw [hab, htail]

theorem natChars_inj (a b : Nat) (h : natChars a = natChars b) : a = b := by
  unfold natChars at h
  by_cases ha : a = 0 <;> by_cases hb : b = 0
  · omega
  · exfalso
    rw [if_pos ha, if_neg hb] at h
    cases hrev : (toDigitsRev b b).reverse with
    | nil => rw [hrev] at h; simp at h
    | cons d rest =>
      rw [hrev] at h
      cases rest with
      | cons d2 rest2 => simp at h
      | nil =>
        simp only [List.map_cons, List.map_nil, List.cons.injEq] at h
        have hd10 : d < 10 := by
          have : d ∈ (toDigitsRev b b).reverse := by rw [hrev]; exact List.mem_cons_self d []
          exact toDigitsRev_lt_ten b b d (List.mem_reverse.mp this)
        have hd0 : d = 0 := digitChar_inj_lt d hd10 0 (by norm_num) h.1.symm
        have hlist : toDigitsRev b b = [0] := by
          have := congrArg List.reverse hrev
          rw [List.reverse_reverse] at this
          rw [this, hd0]
          rfl
        have := ofDigitsRev_toDigitsRev b b le_rfl
        rw [hlist] at this
        simp [ofDigitsRev] at this
        exact hb this.symm
  · exfalso
    rw [if_neg ha, if_pos hb] at h
    cases hrev : (toDigitsRev a a).reverse with
    | nil => rw [hrev] at h; simp at h
    | cons d rest =>
      rw [hrev] at h
      cases rest with
      | cons d2 rest2 => simp at h
      | nil =>
        simp only [List.map_cons, List.map_nil, List.cons.injEq] at h
        have hd10 : d < 10 := by
          have : d ∈ (toDigitsRev a a).reverse := by rw [hrev]; exact List.mem_cons_self d []
          exact toDigitsRev_lt_ten a a d (List.mem_reverse.mp this)
        have hd0 : d = 0 := digitChar_inj_lt d hd10 0 (by norm_num) h.1
        have hlist : toDigitsRev a a = [0] := by
          have := congrArg List.reverse hrev
          rw [List.reverse_reverse] at this
          rw [this, hd0]
          rfl
        have := ofDigitsRev_toDigitsRev a a le_rfl
        rw [hlist] at this
        simp [ofDigitsRev] at this
        exact ha this.symm
  · rw [if_neg ha, if_neg hb] at h
    have hrev : (toDigitsRev a a).reverse = (toDigitsRev b b).reverse :=
      map_digitChar_inj _ _
        (fun d hd => toDigitsRev_lt_ten a a d (List.mem_reverse.mp hd))
        (fun d hd => toDigitsRev_lt_ten b b d (List.mem_reverse.mp hd)) h
    exact toDigitsRev_self_inj a b (List.reverse_injective hrev)

theorem mintId_inj (a b : Nat) (h : mintId a = mintId b) : a = b := by
  unfold mintId natStr at h
  have hd := congrArg String.data h
  simp only [String.data_append] at hd
  exact natChars_inj a b (List.append_cancel_left hd)

theorem runOps_creates (ops : List TermOp) (st : TermMgr)
    (h : st.nextTermId + numCreates ops ≤ 18446744073709551616) :
    (st.runOps ops).2 = (List.range' st.nextTermId (numCreates ops)).map mintId := by
  induction ops generalizing st with
  | nil => rfl
  | cons op rest ih =>
    cases op with
    | close id =>
      show (TermMgr.runOps _ rest).2 = _
      exact ih { st with terminals := st.terminals.erase id } h
    | create =>
      simp only [numCreates] at h
      show mintId st.nextTermId ::
          (TermMgr.runOps
            { terminals := mintId st.nextTermId :: st.terminals,
              nextTermId := (st.nextTermId + 1) % 18446744073709551616 } rest).2 =
        (List.range' st.nextTermId (numCreates rest + 1)).map mintId
      cases hnr : numCreates rest with
      | zero =>
        have hb : (st.nextTermId + 1) % 18446744073709551616 + numCreates rest ≤
            18446744073709551616 := by
          rw [hnr]
          have := Nat.mod_lt (st.nextTermId + 1)
            (show 0 < 18446744073709551616 by norm_num)
          omega
        rw [ih _ hb, hnr]
        rfl
      | succ m =>
        rw [hnr] at h
        have hmod : (st.nextTermId + 1) % 18446744073709551616 = st.nextTermId + 1 :=
          Nat.mod_eq_of_lt (by omega)
        have hb : (st.nextTermId + 1) % 18446744073709551616 + numCreates rest ≤
            18446744073709551616 := by
          rw [hmod, hnr]
          omega
        rw [ih _ hb, hmod, hnr]
        simp [List.range'_succ]

/-- C5: terminal identifiers are "term-<n>" minted from a per-daemon counter
starting at 1 and incremented once per successful create, so over any
sequence of creates and closes the k-th successful create returns
"term-<k>" and all identifiers ever returned are distinct — closed
identifiers are never reused. -/
theorem c5_terminal_ids (ops : List TermOp) (h : numCreates ops + 1 ≤ 2 ^ 64) :
    (TermMgr.init.runOps ops).2 = (List.range' 1 (numCreates ops)).map mintId ∧
    (TermMgr.init.runOps ops).2.Nodup ∧
    mintId 1 = "term-1" ∧ mintId 2 = "term-2" := by
  have hpow : (2 : Nat) ^ 64 = 18446744073709551616 := by norm_num
  rw [hpow] at h
  have hb : TermMgr.init.nextTermId + numCreates ops ≤ 18446744073709551616 := by
    show 1 + numCreates ops ≤ 18446744073709551616
    omega
  have heq := runOps_creates ops TermMgr.init hb
  refine ⟨heq, ?_, by decide, by decide⟩
  rw [heq]
  exact List.Nodup.map (fun a b => mintId_inj a b) (List.nodup_range' 1 (numCreates ops))

/-- C5 witness: two creates, a close and another create hand out
"term-1", "term-2", "term-3", all distinct. -/
theorem c5_terminal_ids_witness :
    (TermMgr.init.runOps [.create, .create, .close "term-1", .create]).2 =
      (List.range' 1 (numCreates [.create, .create, .close "term-1", .create])).map mintId ∧
    (TermMgr.init.runOps [.create, .create, .close "term-1", .create]).2.Nodup ∧
    mintId 1 = "term-1" ∧ mintId 2 = "term-2" :=
  c5_terminal_ids [.create, .create, .close "term-1", .create] (by norm_num [numCreates])

/-- C10 witness: the wire form at a one-byte payload, and the cap-exceeding
length instantiated at 16 MiB + 1. -/
theorem c10_writer_unbounded_witness :
    write_frame [7] = u32be (([7] : List Nat).length % 2 ^ 32) ++ [7] ∧
    (2 ^ 32 ≤ ([7] : List Nat).length →
      ([7] : List Nat).length % 2 ^ 32 ≠ ([7] : List Nat).length) ∧
    (FRAME_CAP < 16777217 → 16777217 < 2 ^ 32 → ∀ p : List Nat, p.length = 16777217 →
      write_frame p = u32be 16777217 ++ p ∧
      read_frame (write_frame p) = .error (.tooLarge 16777217)) :=
  c10_writer_unbounded [7] 16777217

theorem asU16_natCast (n : Nat) (h : n < 65536) :
    Json.asU16 (.num (n : Int)) = some n := by
  show Json.asU16 (.num (.ofNat n)) = some n
  rw [Json.asU16, if_pos h]

/-- C6: `terminal/close` returns ok for every identifier string, including
one that is absent from the session map, and a second close of the same
identifier also returns ok; `terminal/resize` and `terminal/data` on an
identifier not in the map fail with "unknown terminal: <id>". -/
theorem c6_close_idempotent (st : TermMgr) (id data : String) (cols rows : Nat)
    (avail bytes : List Nat) (ptyResize : Except String Unit) :
    (∃ st1, termCloseHandler st (.obj [("id", .str id)]) = .ok (okJson, st1) ∧
      ∃ st2, termCloseHandler st1 (.obj [("id", .str id)]) = .ok (okJson, st2)) ∧
    (cols < 65536 → rows < 65536 → st.terminals.contains id = false →
      termResizeHandler st
        (.obj [("id", .str id), ("cols", .num cols), ("rows", .num rows)]) ptyResize =
          .error ("unknown terminal: " ++ id)) ∧
    (st.terminals.contains id = false → b64urlDecode data = .ok bytes →
      termDataHandler st (.obj [("id", .str id), ("data", .str data)]) avail =
        .error ("unknown terminal: " ++ id)) := by
  refine ⟨⟨_, rfl, _, rfl⟩, fun hc hr hm => ?_, fun hm hd => ?_⟩
  · simp only [termResizeHandler, parseResizeParams, assocFind, Json.asStr,
      String.reduceEq, reduceIte, Option.some_bind, asU16_natCast cols hc,
      asU16_natCast rows hr, hm, Bool.false_eq_true, if_false]
  · simp only [termDataHandler, parseDataParams, assocFind, Json.asStr,
      String.reduceEq, reduceIte, Option.some_bind, hd, hm, Bool.false_eq_true, if_false]

/-- C6 witness: close of a never-minted identifier succeeds twice, and
resize/data on it fail, on a fresh daemon state. -/
theorem c6_close_idempotent_witness :
    (∃ st1, termCloseHandler TermMgr.init (.obj [("id", .str "term-9")]) = .ok (okJson, st1) ∧
      ∃ st2, termCloseHandler st1 (.obj [("id", .str "term-9")]) = .ok (okJson, st2)) ∧
    (80 < 65536 → 24 < 65536 → TermMgr.init.terminals.contains "term-9" = false →
      termResizeHandler TermMgr.init
        (.obj [("id", .str "term-9"), ("cols", .num 80), ("rows", .num 24)]) (.ok ()) =
          .error ("unknown terminal: " ++ "term-9")) ∧
    (TermMgr.init.terminals.contains "term-9" = false →
      b64urlDecode "aGk" = .ok [104, 105] →
      termDataHandler TermMgr.init
        (.obj [("id", .str "term-9"), ("data", .str "aGk")]) [] =
          .error ("unknown terminal: " ++ "term-9")) :=
  c6_close_idempotent TermMgr.init "term-9" "aGk" 80 24 [] [104, 105] (.ok ())

theorem mapValues_eq_none (cs : List Char) (c : Char) (hc : c ∈ cs)
    (hv : b64Val c = none) : mapValues cs = none := by
  induction cs with
  | nil => cases hc
  | cons c2 rest ih =>
    rcases List.mem_cons.mp hc with h1 | h2
    · subst h1
      simp only [mapValues, hv]
    · simp only [mapValues, ih h2]
      cases b64Val c2 <;> rfl

theorem b64Val_plus : b64Val '+' = none := by decide

theorem b64Val_slash : b64Val '/' = none := by decide

/-- C7: on a live session with URL-safe base64 data, `terminal/data` writes
the decoded bytes to the PTY input and answers with the URL-safe base64
encoding of the single read of up to 8192 bytes — the empty string when no
bytes are available; data that is not URL-safe base64 (including standard
base64 using the characters 43 and 47, plus and slash) fails with an error
beginning "bad base64: "; the grace period is 10 ms and the read buffer is
8192 bytes. -/
theorem c7_terminal_data (st : TermMgr) (id data : String) (avail bytes : List Nat)
    (e : String) :
    (st.terminals.contains id = true → b64urlDecode data = .ok bytes →
      termDataHandler st (.obj [("id", .str id), ("data", .str data)]) avail =
        .ok (.obj [("output", .str (if (avail.take TERM_READ_BUF).length > 0
          then b64urlEncode (avail.take TERM_READ_BUF) else ""))], bytes, st)) ∧
    (avail.take TERM_READ_BUF).length ≤ 8192 ∧
    (b64urlDecode data = .error e →
      termDataHandler st (.obj [("id", .str id), ("data", .str data)]) avail =
        .error ("bad base64: " ++ e)) ∧
    (∀ s : String, '+' ∈ s.data ∨ '/' ∈ s.data → ∃ msg, b64urlDecode s = .error msg) ∧
    GRACE_MS ≤ 10 ∧ TERM_READ_BUF = 8192 := by
  refine ⟨fun hm hd => ?_, ?_, fun hd => ?_, fun s hs => ?_, by norm_num [GRACE_MS], rfl⟩
  · simp only [termDataHandler, parseDataParams, assocFind, Json.asStr,
      String.reduceEq, reduceIte, Option.some_bind, hd, hm, if_true]
  · simp only [TERM_READ_BUF, List.length_take]
    omega
  · simp only [termDataHandler, parseDataParams, assocFind, Json.asStr,
      String.reduceEq, reduceIte, Option.some_bind, hd]
  · refine ⟨"invalid byte", ?_⟩
    rcases hs with hplus | hslash
    · simp only [b64urlDecode, mapValues_eq_none s.data _ hplus b64Val_plus]
    · simp only [b64urlDecode, mapValues_eq_none s.data _ hslash b64Val_slash]

/-- C7 witness: a live session receiving "aGk" (the bytes of "hi") with two
bytes of output available. -/
theorem c7_terminal_data_witness :
    ((⟨["term-1"], 2⟩ : TermMgr).terminals.contains "term-1" = true →
      b64urlDecode "aGk" = .ok [104, 105] →
      termDataHandler ⟨["term-1"], 2⟩
        (.obj [("id", .str "term-1"), ("data", .str "aGk")]) [104, 105] =
        .ok (.obj [("output", .str (if (([104, 105] : List Nat).take TERM_READ_BUF).length > 0
          then b64urlEncode (([104, 105] : List Nat).take TERM_READ_BUF) else ""))],
          [104, 105], ⟨["term-1"], 2⟩)) ∧
    (([104, 105] : List Nat).take TERM_READ_BUF).length ≤ 8192 ∧
    (b64urlDecode "aGk" = .error "x" →
      termDataHandler ⟨["term-1"], 2⟩
        (.obj [("id", .str "term-1"), ("data", .str "aGk")]) [104, 105] =
        .error ("bad base64: " ++ "x")) ∧
    (∀ s : String, '+' ∈ s.data ∨ '/' ∈ s.data → ∃ msg, b64urlDecode s = .error msg) ∧
    GRACE_MS ≤ 10 ∧ TERM_READ_BUF = 8192 :=
  c7_terminal_data ⟨["term-1"], 2⟩ "term-1" "aGk" [104, 105] [104, 105] "x"

/-- C9: every fs and lsp handler with a `path` input acts on the daemon's
working directory joined with the given path — for a relative path the
resolution is relative to the working directory, while an absolute path
replaces it (PathBuf::join semantics; the daemon does not sandbox). -/
theorem c9_path_resolution (fs : Filesystem) (lspCheck : String → Json)
    (workdir p content : String) :
    fsListHandler fs workdir (.obj [("path", .str p)]) = fs.list (pathJoin workdir p) ∧
    fsReadHandler fs workdir (.obj [("path", .str p)]) =
      (fs.read (pathJoin workdir p)).map (fun c => .obj [("content", .str c)]) ∧
    fsWriteHandler fs workdir (.obj [("path", .str p), ("content", .str content)]) =
      (fs.write (pathJoin workdir p) content).map (fun _ => okJson) ∧
    fsStatHandler fs workdir (.obj [("path", .str p)]) = fs.stat (pathJoin workdir p) ∧
    lspDiagnosticsHandler lspCheck workdir (.obj [("path", .str p)]) =
      .ok (lspCheck (pathJoin workdir p)) ∧
    (isAbsolutePath p = false → workdir ≠ "" → workdir.data.getLast? ≠ some '/' →
      pathJoin workdir p = workdir ++ "/" ++ p) ∧
    (isAbsolutePath p = true → pathJoin workdir p = p) := by
  refine ⟨rfl, rfl, rfl, rfl, rfl, fun habs hne hsl => ?_, fun habs => ?_⟩
  · rw [pathJoin, if_neg (by simp [habs]), if_neg hne, if_neg hsl]
  · rw [pathJoin, if_pos habs]

/-- C9 witness: path resolution at a concrete filesystem, working directory
and relative path. -/
theorem c9_path_resolution_witness :
    fsListHandler ⟨fun _ => .ok .null, fun _ => .ok "", fun _ _ => .ok (), fun _ => .ok .null⟩
      "/home/dev/project" (.obj [("path", .str "src/main.rs")]) =
      Filesystem.list ⟨fun _ => .ok .null, fun _ => .ok "", fun _ _ => .ok (), fun _ => .ok .null⟩
        (pathJoin "/home/dev/project" "src/main.rs") ∧
    fsReadHandler ⟨fun _ => .ok .null, fun _ => .ok "", fun _ _ => .ok (), fun _ => .ok .null⟩
      "/home/dev/project" (.obj [("path", .str "src/main.rs")]) =
      (Filesystem.read ⟨fun _ => .ok .null, fun _ => .ok "", fun _ _ => .ok (), fun _ => .ok .null⟩
        (pathJoin "/home/dev/project" "src/main.rs")).map
          (fun c => .obj [("content", .str c)]) ∧
    fsWriteHandler ⟨fun _ => .ok .null, fun _ => .ok "", fun _ _ => .ok (), fun _ => .ok .null⟩
      "/home/dev/project" (.obj [("path", .str "src/main.rs"), ("content", .str "hello")]) =
      (Filesystem.write ⟨fun _ => .ok .null, fun _ => .ok "", fun _ _ => .ok (), fun _ => .ok .null⟩
        (pathJoin "/home/dev/project" "src/main.rs") "hello").map (fun _ => okJson) ∧
    fsStatHandler ⟨fun _ => .ok .null, fun _ => .ok "", fun _ _ => .ok (), fun _ => .ok .null⟩
      "/home/dev/project" (.obj [("path", .str "src/main.rs")]) =
      Filesystem.stat ⟨fun _ => .ok .null, fun _ => .ok "", fun _ _ => .ok (), fun _ => .ok .null⟩
        (pathJoin "/home/dev/project" "src/main.rs") ∧
    lspDiagnosticsHandler (fun _ => .arr []) "/home/dev/project"
      (.obj [("path", .str "src/main.rs")]) =
      .ok ((fun _ => (.arr [] : Json)) (pathJoin "/home/dev/project" "src/main.rs")) ∧
    (isAbsolutePath "src/main.rs" = false → "/home/dev/project" ≠ "" →
      ("/home/dev/project" : String).data.getLast? ≠ some '/' →
      pathJoin "/home/dev/project" "src/main.rs" = "/home/dev/project" ++ "/" ++ "src/main.rs") ∧
    (isAbsolutePath "src/main.rs" = true →
      pathJoin "/home/dev/project" "src/main.rs" = "src/main.rs") :=
  c9_path_resolution ⟨fun _ => .ok .null, fun _ => .ok "", fun _ _ => .ok (), fun _ => .ok .null⟩
    (fun _ => .arr []) "/home/dev/project" "src/main.rs" "hello"


end Zedra
